import Mathlib

/-
Shallow embedding of the InkyPi image-album illustration pipeline:
the deAPI WebSocket completion listener
(src/plugins/image_album/illustration_providers/deapi_websocket.py),
the polling fallback and orchestration in the provider
(src/plugins/image_album/illustration_providers/deapi_provider.py),
and the filename sanitizer (src/plugins/image_album/image_album.py).
-/

namespace InkyPi

/-- Parsed payload of a `request.status.updated` event: `json.loads(data.get("data"))`,
with the fields the listener reads via `payload.get`.  An absent key reads as `none`
(Python `None`); `progress` defaults to `""` per `payload.get("progress", "")`. -/
structure Payload where
  request_id : Option String
  status : Option String
  progress : String
  result_url : Option String
deriving DecidableEq, Repr

/-- An inbound WebSocket message as `on_message` classifies it after parsing.
`malformed` covers a message that is not valid JSON, or whose embedded `data`
field fails to parse: the Python handler wraps everything in try/except, so
such a message is logged and otherwise ignored. `connEstablished` is a
`pusher:connection_established` event whose data carried the given optional
`socket_id`; `statusUpdated` is a `request.status.updated` event with its
parsed payload; `otherEvent` is any other well-formed event (unrelated traffic
on the shared connection). -/
inductive WsMessage where
  | malformed
  | connEstablished (socketId : Option String)
  | statusUpdated (payload : Payload)
  | otherEvent (event : String)
deriving DecidableEq, Repr

/-- Local state of `wait_for_result`: `result` is `result_holder[0]`, `done` is the
`threading.Event`, `wsClosed` records that `ws.close()` has been called.
`sentSubscribe` is instrumentation recording that the `pusher:subscribe` frame
was sent on the socket (an outbound effect of `_subscribe_private_channel`,
not a Python variable). -/
structure ListenerState where
  result : Option Payload
  done : Bool
  wsClosed : Bool
  sentSubscribe : Bool
deriving DecidableEq, Repr

/-- Initial listener state: no result, event not set, socket open, nothing sent. -/
def initListener : ListenerState := ⟨none, false, false, false⟩

/-- Embeds `_subscribe_private_channel`: the auth POST to `/broadcasting/auth`
returns `authStatus`; if it is not 200 the function logs and returns without
subscribing (`none`); otherwise the subscribe frame for channel
`private-client.{client_id}` is sent (`some channel`). -/
def _subscribe_private_channel (authStatus : Nat) (clientId : String) : Option String :=
  if authStatus = 200 then some ("private-client." ++ clientId) else none

/-- Embeds the `on_message` callback of `wait_for_result`.  A
`pusher:connection_established` event with a socket id triggers the auth and
subscribe exchange (only `sentSubscribe` can change; `result`/`done` are
untouched).  A `request.status.updated` event is acted on only when its
payload's `request_id` equals the awaited one: status `"done"` stores the
payload and sets the event and closes the socket; status `"error"` sets the
event and closes the socket without storing a result; any other status only
logs progress.  Malformed messages and other events change nothing. -/
def on_message (request_id clientId : String) (authStatus : Nat)
    (s : ListenerState) (m : WsMessage) : ListenerState :=
  match m with
  | .malformed => s
  | .otherEvent _ => s
  | .connEstablished socketId =>
    match socketId with
    | some _ =>
      match _subscribe_private_channel authStatus clientId with
      | some _ => { s with sentSubscribe := true }
      | none => s
    | none => s
  | .statusUpdated p =>
    if p.request_id = some request_id then
      if p.status = some "done" then { s with result := some p, done := true, wsClosed := true }
      else if p.status = some "error" then { s with done := true, wsClosed := true }
      else s
    else s

/-- One delivery step: once `done` is set the socket has been closed and
`run_forever` has exited, so no further messages are delivered. -/
def stepListener (request_id clientId : String) (authStatus : Nat)
    (s : ListenerState) (m : WsMessage) : ListenerState :=
  if s.done then s else on_message request_id clientId authStatus s m

/-- The listener's state after the given finite sequence of inbound messages. -/
def runListener (request_id clientId : String) (authStatus : Nat)
    (msgs : List WsMessage) : ListenerState :=
  msgs.foldl (stepListener request_id clientId authStatus) initListener

/-- Embeds the caller side of `wait_for_result`: `done.wait(timeout)` either
observes the event set (return `result_holder[0]`, socket already closed by the
handler) or times out, in which case the caller closes the socket via
`ws_ref[0].close()` and returns `None`.  The returned pair is
(returned result, whether the socket ends up closed). -/
def wait_for_result (request_id clientId : String) (authStatus : Nat)
    (msgs : List WsMessage) : Option Payload × Bool :=
  let s := runListener request_id clientId authStatus msgs
  if s.done then (s.result, s.wsClosed) else (none, true)

/-- Timed step for the deadline analysis: messages arrive with timestamps; the
accumulator tracks the state plus the time at which `done` was first set. -/
def timedStep (request_id clientId : String) (authStatus : Nat)
    (acc : ListenerState × Option Nat) (tm : Nat × WsMessage) : ListenerState × Option Nat :=
  if acc.1.done then acc
  else
    let s := on_message request_id clientId authStatus acc.1 tm.2
    (s, if s.done then some tm.1 else none)

/-- Timed run of `wait_for_result`: the caller's `done.wait(timeout)` returns at
the time the event is set, or at `timeout` if it is never set, in which case
the caller closes the socket.  Returns the final state and the time at which
the call returns.  Message timestamps are assumed at most `timeout`. -/
def listenerTimedRun (request_id clientId : String) (authStatus : Nat) (timeout : Nat)
    (msgs : List (Nat × WsMessage)) : ListenerState × Nat :=
  let r := msgs.foldl (timedStep request_id clientId authStatus) (initListener, none)
  match r.2 with
  | some t => (r.1, t)
  | none => ({ r.1 with wsClosed := true }, timeout)

/-- A message is ignorable when it is not a `request.status.updated` event or
its embedded job identifier differs from the awaited `request_id`. -/
def isIgnorable (request_id : String) (m : WsMessage) : Bool :=
  match m with
  | .statusUpdated p => decide (p.request_id ≠ some request_id)
  | _ => true

/-- A message resolves the listener exactly when it is a matching
`request.status.updated` event with terminal status `"done"` or `"error"`. -/
def resolvesListener (request_id : String) (m : WsMessage) : Bool :=
  match m with
  | .statusUpdated p =>
    decide (p.request_id = some request_id) &&
      (decide (p.status = some "done") || decide (p.status = some "error"))
  | _ => false

/-- Total wait bound `MAX_WAIT_TIME = 300` seconds from deapi_provider.py. -/
def MAX_WAIT_TIME : Nat := 300

/-- Sleep interval `POLL_INTERVAL = 2` seconds between polling cycles. -/
def POLL_INTERVAL : Nat := 2

/-- One response of the status endpoint as `_poll_for_result` reads it: the
HTTP status code, and for a parsed body, `data.get("status")` and
`data.get("result_url")` (absent keys read as `none`). -/
structure HttpResp where
  status_code : Nat
  status : Option String
  result_url : Option String
deriving DecidableEq, Repr

/-- Observable outcome of `_poll_for_result`, recording which return path fired
and at which attempt index (0-based; the attempt index also equals the number
of `time.sleep(POLL_INTERVAL)` calls performed before that attempt).  Only
`done` corresponds to a non-`None` Python return value (the fetched image);
every other constructor is a distinct `return None` site in the source. -/
inductive PollOut where
  | done (url : String) (attempts : Nat)
  | failedStatus (code : Nat) (attempts : Nat)
  | noUrl (attempts : Nat)
  | fetchFailed (attempts : Nat)
  | jobError (attempts : Nat)
  | timedOut (attempts : Nat)
deriving DecidableEq, Repr

/-- Embeds the body of `_poll_for_result`'s while loop.  `resps k` is the
status-endpoint response consumed by the k-th attempt, `fetch url` the HTTP
status of `session.get(result_url)`.  Network calls are modelled as
instantaneous, so the clock `elapsed` advances by `POLL_INTERVAL` exactly on
each sleep, and the loop guard `(time.monotonic() - start) < MAX_WAIT_TIME`
becomes `elapsed < MAX_WAIT_TIME`.  The `fuel` argument only bounds the
recursion; from `(k, elapsed) = (0, 0)` the loop provably exits within 151
iterations, so any fuel of at least 151 (we pass `MAX_WAIT_TIME + 1` below)
makes the fuel-exhaustion branch unreachable. -/
def pollGo (resps : Nat → HttpResp) (fetch : String → Nat) :
    Nat → Nat → Nat → PollOut
  | 0, k, _ => .timedOut k
  | fuel+1, k, elapsed =>
    if MAX_WAIT_TIME ≤ elapsed then .timedOut k
    else
      let r := resps k
      if r.status_code ≠ 200 then .failedStatus r.status_code k
      else if r.status = some "done" then
        match r.result_url with
        | some url =>
          if url = "" then .noUrl k
          else if fetch url = 200 then .done url k else .fetchFailed k
        | none => .noUrl k
      else if r.status = some "error" then .jobError k
      else pollGo resps fetch fuel (k+1) (elapsed + POLL_INTERVAL)

/-- Embeds `DeAPIIllustrationProvider._poll_for_result`. -/
def _poll_for_result (resps : Nat → HttpResp) (fetch : String → Nat) : PollOut :=
  pollGo resps fetch (MAX_WAIT_TIME + 1) 0 0

/-- Projects the instrumented outcome onto the Python return value: the fetched
result URL stands in for the decoded image; every other path returns `None`. -/
def pollToOption : PollOut → Option String
  | .done url _ => some url
  | _ => none

/-- Outcome of the wait-and-fallback section of `to_illustration` (after a
successful submission): the final image (as its source URL) or `none`, plus
whether `_poll_for_result` was invoked. -/
structure ResolveTrace where
  image : Option String
  usedPolling : Bool
deriving DecidableEq, Repr

/-- Embeds the result-resolution logic of `to_illustration` after submission
returned `request_id`: if `client_id` is non-empty, `wait_for_result` is tried
first; when it returns a payload with a truthy `result_url` whose fetch
returns HTTP 200, that image is the result and polling is skipped; in every
other case (`out_img is None`) the code falls back to `_poll_for_result`. -/
def resolveJob (request_id clientId : String) (authStatus : Nat)
    (msgs : List WsMessage) (fetch : String → Nat) (resps : Nat → HttpResp) :
    ResolveTrace :=
  let wsImg : Option String :=
    if clientId = "" then none
    else
      match (wait_for_result request_id clientId authStatus msgs).1 with
      | some p =>
        match p.result_url with
        | some url =>
          if url = "" then none
          else if fetch url = 200 then some url else none
        | none => none
      | none => none
  match wsImg with
  | some u => { image := some u, usedPolling := false }
  | none => { image := pollToOption (_poll_for_result resps fetch), usedPolling := true }

/-- Characters removed by `re.sub(r'[/\\:*?"<>|]', "", s)` in `_sanitize_filename`. -/
def forbiddenFilenameChars : List Char := ['/', '\\', ':', '*', '?', '"', '<', '>', '|']

/-- Characters stripped by Python `str.strip()` with no argument. -/
def pythonWhitespace (c : Char) : Bool :=
  c = ' ' || c = '\t' || c = '\n' || c = '\r' || c = '\x0b' || c = '\x0c'

/-- Embeds Python `s.strip()`: drop whitespace from both ends. -/
def pyStrip (s : String) : String :=
  String.mk (((s.data.dropWhile pythonWhitespace).reverse.dropWhile pythonWhitespace).reverse)

/-- Embeds `re.sub(r'[/\\:*?"<>|]', "", s)`: delete every forbidden character. -/
def removeForbidden (s : String) : String :=
  String.mk (s.data.filter (fun c => !(forbiddenFilenameChars.contains c)))

/-- Embeds Python `(name or "unknown")`: `None` and the empty string are falsy. -/
def nameOrUnknown : Option String → String
  | none => "unknown"
  | some n => if n = "" then "unknown" else n

/-- Embeds `_sanitize_filename` from image_album.py, with `none` standing for a
Python `None` argument. -/
def _sanitize_filename (name : Option String) : String :=
  let s := removeForbidden (pyStrip (nameOrUnknown name))
  if s = "" then "unknown" else s

/-- A status response on which the polling loop neither returns nor fails: the
HTTP call succeeded and the reported status is neither "done" nor "error", so
the loop sleeps and retries. -/
def nonTerminalOK (r : HttpResp) : Prop :=
  r.status_code = 200 ∧ r.status ≠ some "done" ∧ r.status ≠ some "error"

instance (r : HttpResp) : Decidable (nonTerminalOK r) := by
  unfold nonTerminalOK
  infer_instance

/-- Two messages are progress-equivalent when they are equal, or are both
status-update events that agree on every payload field except `progress` and
whose status is not terminal (`"done"`/`"error"`). -/
def progressEquiv (m1 m2 : WsMessage) : Bool :=
  decide (m1 = m2) ||
    match m1, m2 with
    | .statusUpdated p, .statusUpdated q =>
      decide (p.request_id = q.request_id) && decide (p.status = q.status) &&
        decide (p.result_url = q.result_url) &&
        !(decide (p.status = some "done")) && !(decide (p.status = some "error"))
    | _, _ => false

/-- Pointwise progress-equivalence of two message sequences. -/
def progressEquivList : List WsMessage → List WsMessage → Bool
  | [], [] => true
  | m1 :: r1, m2 :: r2 => progressEquiv m1 m2 && progressEquivList r1 r2
  | _, _ => false

lemma on_message_statusUpdated_nonterminal (request_id clientId : String) (authStatus : Nat)
    (s : ListenerState) (p : Payload)
    (hd : p.status ≠ some "done") (he : p.status ≠ some "error") :
    on_message request_id clientId authStatus s (.statusUpdated p) = s := by
  simp [on_message, hd, he]

lemma on_message_nonresolving (request_id clientId : String) (authStatus : Nat)
    (s : ListenerState) (m : WsMessage) (h : resolvesListener request_id m = false) :
    (on_message request_id clientId authStatus s m).result = s.result ∧
    (on_message request_id clientId authStatus s m).done = s.done ∧
    (on_message request_id clientId authStatus s m).wsClosed = s.wsClosed := by
  cases m with
  | malformed => simp [on_message]
  | otherEvent e => simp [on_message]
  | connEstablished sid =>
    cases sid with
    | none => simp [on_message]
    | some x =>
      simp only [on_message]
      cases _subscribe_private_channel authStatus clientId <;> simp
  | statusUpdated p =>
    simp only [resolvesListener, Bool.and_eq_false_iff, Bool.or_eq_false_iff,
      decide_eq_false_iff_not] at h
    rcases h with h | ⟨hd, he⟩
    · simp [on_message, h]
    · rw [on_message_statusUpdated_nonterminal _ _ _ _ _ hd he]
      exact ⟨rfl, rfl, rfl⟩

lemma stepListener_of_done (request_id clientId : String) (authStatus : Nat)
    (s : ListenerState) (m : WsMessage) (h : s.done = true) :
    stepListener request_id clientId authStatus s m = s := by
  simp [stepListener, h]

lemma foldl_stepListener_of_done (request_id clientId : String) (authStatus : Nat)
    (msgs : List WsMessage) (s : ListenerState) (h : s.done = true) :
    msgs.foldl (stepListener request_id clientId authStatus) s = s := by
  induction msgs with
  | nil => rfl
  | cons m rest ih =>
    rw [List.foldl_cons, stepListener_of_done _ _ _ _ _ h, ih]

lemma foldl_stepListener_nonresolving (request_id clientId : String) (authStatus : Nat) :
    ∀ (msgs : List WsMessage) (s : ListenerState),
      (∀ m ∈ msgs, resolvesListener request_id m = false) → s.done = false →
      ((msgs.foldl (stepListener request_id clientId authStatus) s).result = s.result ∧
       (msgs.foldl (stepListener request_id clientId authStatus) s).done = false ∧
       (msgs.foldl (stepListener request_id clientId authStatus) s).wsClosed = s.wsClosed)
  | [], s, _, hdone => ⟨rfl, hdone, rfl⟩
  | m :: rest, s, hall, hdone => by
    rw [List.foldl_cons]
    have hm := hall m (List.mem_cons_self m rest)
    have hstep : stepListener request_id clientId authStatus s m =
        on_message request_id clientId authStatus s m := by
      simp [stepListener, hdone]
    obtain ⟨h1, h2, h3⟩ := on_message_nonresolving request_id clientId authStatus s m hm
    have hrest := foldl_stepListener_nonresolving request_id clientId authStatus rest
      (stepListener request_id clientId authStatus s m)
      (fun x hx => hall x (List.mem_cons_of_mem m hx)) (by rw [hstep, h2]; exact hdone)
    refine ⟨?_, hrest.2.1, ?_⟩
    · rw [hrest.1, hstep, h1]
    · rw [hrest.2.2, hstep, h3]

lemma isIgnorable_nonresolving (request_id : String) (m : WsMessage)
    (h : isIgnorable request_id m = true) : resolvesListener request_id m = false := by
  cases m with
  | malformed => rfl
  | otherEvent e => rfl
  | connEstablished sid => rfl
  | statusUpdated p =>
    simp only [isIgnorable, decide_eq_true_eq] at h
    simp [resolvesListener, h]

lemma foldl_timedStep_nonresolving (request_id clientId : String) (authStatus : Nat) :
    ∀ (msgs : List (Nat × WsMessage)) (s : ListenerState),
      (∀ tm ∈ msgs, resolvesListener request_id tm.2 = false) → s.done = false →
      ((msgs.foldl (timedStep request_id clientId authStatus) (s, none)).1.result = s.result ∧
       (msgs.foldl (timedStep request_id clientId authStatus) (s, none)).1.done = false ∧
       (msgs.foldl (timedStep request_id clientId authStatus) (s, none)).1.wsClosed = s.wsClosed ∧
       (msgs.foldl (timedStep request_id clientId authStatus) (s, none)).2 = none)
  | [], s, _, hdone => ⟨rfl, hdone, rfl, rfl⟩
  | tm :: rest, s, hall, hdone => by
    rw [List.foldl_cons]
    have hm := hall tm (List.mem_cons_self tm rest)
    obtain ⟨h1, h2, h3⟩ := on_message_nonresolving request_id clientId authStatus s tm.2 hm
    have hstep : timedStep request_id clientId authStatus (s, none) tm =
        (on_message request_id clientId authStatus s tm.2, none) := by
      simp [timedStep, hdone, h2, hdone]
    rw [hstep]
    have hrest := foldl_timedStep_nonresolving request_id clientId authStatus rest
      (on_message request_id clientId authStatus s tm.2)
      (fun x hx => hall x (List.mem_cons_of_mem tm hx)) (by rw [h2]; exact hdone)
    exact ⟨by rw [hrest.1, h1], hrest.2.1, by rw [hrest.2.2.1, h3], hrest.2.2.2⟩

/-- C4: for every finite sequence of inbound events in which exactly one event
is a status update carrying the awaited request_id, with status "done" and a
result URL, the listener resolves to Done carrying exactly that URL (it
returns the matching payload, whose result_url is that URL, with the socket
closed by the handler); and every event whose type is not a status update or
whose embedded job identifier differs from the awaited request_id leaves the
listener's resolution state (stored result, completion signal, socket)
unchanged, regardless of the order or count of such events. -/
theorem C4_unique_done_resolves_with_url (request_id clientId : String) (authStatus : Nat)
    (pre post : List WsMessage) (p : Payload) (u : String)
    (hpre : ∀ m ∈ pre, isIgnorable request_id m = true)
    (hpost : ∀ m ∈ post, isIgnorable request_id m = true)
    (hid : p.request_id = some request_id)
    (hst : p.status = some "done")
    (hurl : p.result_url = some u) :
    wait_for_result request_id clientId authStatus (pre ++ .statusUpdated p :: post) =
      (some p, true) ∧
    ((wait_for_result request_id clientId authStatus (pre ++ .statusUpdated p :: post)).1.map
        Payload.result_url = some (some u)) ∧
    (∀ (s : ListenerState) (m : WsMessage), isIgnorable request_id m = true →
      ((on_message request_id clientId authStatus s m).result = s.result ∧
       (on_message request_id clientId authStatus s m).done = s.done ∧
       (on_message request_id clientId authStatus s m).wsClosed = s.wsClosed)) := by
  have hmain : wait_for_result request_id clientId authStatus
      (pre ++ .statusUpdated p :: post) = (some p, true) := by
    have hnr : ∀ m ∈ pre, resolvesListener request_id m = false :=
      fun m hm => isIgnorable_nonresolving _ _ (hpre m hm)
    have h1 := foldl_stepListener_nonresolving request_id clientId authStatus pre
      initListener hnr rfl
    simp only [wait_for_result, runListener, List.foldl_append, List.foldl_cons]
    have hstep : stepListener request_id clientId authStatus
        (pre.foldl (stepListener request_id clientId authStatus) initListener)
        (.statusUpdated p) =
        { pre.foldl (stepListener request_id clientId authStatus) initListener with
            result := some p, done := true, wsClosed := true } := by
      simp [stepListener, h1.2.1, on_message, hid, hst]
    rw [hstep, foldl_stepListener_of_done _ _ _ _ _ rfl]
    simp
  refine ⟨hmain, ?_, ?_⟩
  · rw [hmain]
    simp [hurl]
  · intro s m hm
    exact on_message_nonresolving _ _ _ _ _ (isIgnorable_nonresolving _ _ hm)

/-- Witness for C4 at a concrete event sequence containing unrelated traffic, a
done event for a different job, the handshake event, the matching done event
and a malformed trailer. -/
theorem C4_witness :
    wait_for_result "job-1" "cl" 200
      [WsMessage.otherEvent "pusher:ping",
       WsMessage.statusUpdated ⟨some "other-job", some "done", "", some "http://x"⟩,
       WsMessage.connEstablished (some "s1"),
       WsMessage.statusUpdated ⟨some "job-1", some "done", "55", some "http://result"⟩,
       WsMessage.malformed] =
      (some ⟨some "job-1", some "done", "55", some "http://result"⟩, true) :=
  (C4_unique_done_resolves_with_url "job-1" "cl" 200
    [WsMessage.otherEvent "pusher:ping",
     WsMessage.statusUpdated ⟨some "other-job", some "done", "", some "http://x"⟩,
     WsMessage.connEstablished (some "s1")]
    [WsMessage.malformed]
    ⟨some "job-1", some "done", "55", some "http://result"⟩ "http://result"
    (by decide) (by decide) rfl rfl rfl).1

lemma on_message_progressEquiv (request_id clientId : String) (authStatus : Nat)
    (m1 m2 : WsMessage) (h : progressEquiv m1 m2 = true) (s : ListenerState) :
    on_message request_id clientId authStatus s m1 =
      on_message request_id clientId authStatus s m2 := by
  simp only [progressEquiv, Bool.or_eq_true, decide_eq_true_eq] at h
  rcases h with heq | hm
  · rw [heq]
  · cases m1 with
    | statusUpdated p =>
      cases m2 with
      | statusUpdated q =>
        simp only [Bool.and_eq_true, decide_eq_true_eq, Bool.not_eq_true',
          decide_eq_false_iff_not] at hm
        obtain ⟨⟨⟨⟨hrid, hst⟩, hurl⟩, hnd⟩, hne⟩ := hm
        rw [on_message_statusUpdated_nonterminal _ _ _ _ _ hnd hne,
          on_message_statusUpdated_nonterminal _ _ _ _ _
            (fun hq => hnd (hst.trans hq)) (fun hq => hne (hst.trans hq))]
      | malformed => simp at hm
      | connEstablished sid => simp at hm
      | otherEvent e => simp at hm
    | malformed => cases m2 <;> simp at hm
    | connEstablished sid => cases m2 <;> simp at hm
    | otherEvent e => cases m2 <;> simp at hm

lemma foldl_progressEquivList (request_id clientId : String) (authStatus : Nat) :
    ∀ (l1 l2 : List WsMessage), progressEquivList l1 l2 = true →
      ∀ s : ListenerState,
        l1.foldl (stepListener request_id clientId authStatus) s =
          l2.foldl (stepListener request_id clientId authStatus) s
  | [], [], _, s => rfl
  | [], _ :: _, h, s => by simp [progressEquivList] at h
  | _ :: _, [], h, s => by simp [progressEquivList] at h
  | m1 :: r1, m2 :: r2, h, s => by
    simp only [progressEquivList, Bool.and_eq_true] at h
    rw [List.foldl_cons, List.foldl_cons]
    have hstep : stepListener request_id clientId authStatus s m1 =
        stepListener request_id clientId authStatus s m2 := by
      by_cases hd : s.done <;>
        simp [stepListener, hd, on_message_progressEquiv _ _ _ _ _ h.1 s]
    rw [hstep]
    exact foldl_progressEquivList request_id clientId authStatus r1 r2 h.2 _

/-- C8: for any two inbound event sequences that differ only in the
progress-percentage fields of intermediate (non-terminal) status-update
events, the listener produces the same terminal outcome and the same result
URL: `wait_for_result` returns identical results on both sequences. -/
theorem C8_progress_never_alters_outcome (request_id clientId : String) (authStatus : Nat)
    (msgs1 msgs2 : List WsMessage) (h : progressEquivList msgs1 msgs2 = true) :
    wait_for_result request_id clientId authStatus msgs1 =
      wait_for_result request_id clientId authStatus msgs2 := by
  unfold wait_for_result runListener
  rw [foldl_progressEquivList request_id clientId authStatus msgs1 msgs2 h]

/-- Witness for C8: two concrete sequences whose intermediate matching status
update carries progress 10 in one and progress 90 in the other. -/
theorem C8_witness :
    wait_for_result "j" "c" 200
      [WsMessage.statusUpdated ⟨some "j", some "pending", "10", none⟩,
       WsMessage.statusUpdated ⟨some "j", some "done", "", some "http://u"⟩] =
    wait_for_result "j" "c" 200
      [WsMessage.statusUpdated ⟨some "j", some "pending", "90", none⟩,
       WsMessage.statusUpdated ⟨some "j", some "done", "", some "http://u"⟩] :=
  C8_progress_never_alters_outcome "j" "c" 200 _ _ (by decide)

lemma stepListener_malformed (request_id clientId : String) (authStatus : Nat)
    (s : ListenerState) :
    stepListener request_id clientId authStatus s .malformed = s := by
  by_cases h : s.done <;> simp [stepListener, on_message, h]

/-- C10: an inbound message that is not valid JSON, or whose embedded data
field fails to parse, is handled without exception (the handler is a total
function on `WsMessage.malformed`) and leaves the entire listener state —
stored result and completion signal included — unchanged; consequently
inserting such a message anywhere in an event sequence does not change the
outcome of `wait_for_result`, so the listener keeps waiting for further
events instead of aborting. -/
theorem C10_malformed_message_ignored (request_id clientId : String) (authStatus : Nat)
    (s : ListenerState) (msgs1 msgs2 : List WsMessage) :
    on_message request_id clientId authStatus s .malformed = s ∧
    wait_for_result request_id clientId authStatus (msgs1 ++ .malformed :: msgs2) =
      wait_for_result request_id clientId authStatus (msgs1 ++ msgs2) := by
  refine ⟨rfl, ?_⟩
  unfold wait_for_result runListener
  rw [List.foldl_append, List.foldl_append, List.foldl_cons, stepListener_malformed]

/-- C6: if the caller's wait deadline expires with no terminal event from the
real-time path (no inbound message resolves the listener), the call returns at
the deadline with no result — the caller-side TimedOut outcome — and the
underlying connection is closed by the caller afterwards, never left open. -/
theorem C6_deadline_expiry_closes_connection (request_id clientId : String)
    (authStatus timeout : Nat) (msgs : List (Nat × WsMessage))
    (h : ∀ tm ∈ msgs, resolvesListener request_id tm.2 = false) :
    (listenerTimedRun request_id clientId authStatus timeout msgs).2 = timeout ∧
    (listenerTimedRun request_id clientId authStatus timeout msgs).1.result = none ∧
    (listenerTimedRun request_id clientId authStatus timeout msgs).1.wsClosed = true := by
  have hf := foldl_timedStep_nonresolving request_id clientId authStatus msgs initListener h rfl
  simp only [listenerTimedRun, hf.2.2.2]
  exact ⟨trivial, hf.1, trivial⟩

/-- Witness for C6: only unrelated traffic arrives before the deadline; the call
returns at the deadline, with no result and a closed connection. -/
theorem C6_witness :
    (listenerTimedRun "job-2" "cl" 200 300
      [(5, WsMessage.statusUpdated ⟨some "other-job", some "done", "", some "http://x"⟩),
       (7, WsMessage.otherEvent "pusher:ping")]).2 = 300 ∧
    (listenerTimedRun "job-2" "cl" 200 300
      [(5, WsMessage.statusUpdated ⟨some "other-job", some "done", "", some "http://x"⟩),
       (7, WsMessage.otherEvent "pusher:ping")]).1.result = none ∧
    (listenerTimedRun "job-2" "cl" 200 300
      [(5, WsMessage.statusUpdated ⟨some "other-job", some "done", "", some "http://x"⟩),
       (7, WsMessage.otherEvent "pusher:ping")]).1.wsClosed = true :=
  C6_deadline_expiry_closes_connection "job-2" "cl" 200 300 _ (by decide)

/-- Counterexample for C2: the authentication exchange fails (HTTP 403) at time
1, and the listener does NOT resolve within one authentication round-trip: the
failed auth changes nothing (the handler merely logs and returns), so the call
only returns at the full 300-second deadline, with no result.  The claim that
the listener resolves to Unavailable within one authentication round-trip is
therefore false on the code.  (The auth failure is indeed not reported as a
job failure: the result is `none`, `done` is never set.) -/
theorem C2_cex_auth_failure_waits_out_deadline :
    listenerTimedRun "job-3" "cl" 403 300 [(1, WsMessage.connEstablished (some "sock-1"))] =
      ({ result := none, done := false, wsClosed := true, sentSubscribe := false }, 300) ∧
    ¬ (listenerTimedRun "job-3" "cl" 403 300
        [(1, WsMessage.connEstablished (some "sock-1"))]).2 < 300 := by
  decide

lemma on_message_sentSubscribe_of_auth_ne (request_id clientId : String) (authStatus : Nat)
    (hauth : authStatus ≠ 200) (s : ListenerState) (m : WsMessage) :
    (on_message request_id clientId authStatus s m).sentSubscribe = s.sentSubscribe := by
  cases m with
  | malformed => rfl
  | otherEvent e => rfl
  | connEstablished sid =>
    cases sid with
    | none => rfl
    | some x => simp [on_message, _subscribe_private_channel, hauth]
  | statusUpdated p =>
    simp only [on_message]
    split
    · split
      · rfl
      · split <;> rfl
    · rfl

lemma foldl_timedStep_sentSubscribe (request_id clientId : String) (authStatus : Nat)
    (hauth : authStatus ≠ 200) :
    ∀ (msgs : List (Nat × WsMessage)) (acc : ListenerState × Option Nat),
      (msgs.foldl (timedStep request_id clientId authStatus) acc).1.sentSubscribe =
        acc.1.sentSubscribe
  | [], _ => rfl
  | tm :: rest, acc => by
    rw [List.foldl_cons,
      foldl_timedStep_sentSubscribe request_id clientId authStatus hauth rest]
    by_cases hd : acc.1.done
    · simp [timedStep, hd]
    · simp [timedStep, hd,
        on_message_sentSubscribe_of_auth_ne request_id clientId authStatus hauth]

/-- C2 amended: if the private-channel authentication exchange returns a
non-success response, the subscribe frame is never sent and the failure causes
no listener state change, so (absent matching terminal events, which the
unsubscribed private channel will not deliver) the listener resolves only when
the full deadline elapses, returning no result — the Unavailable outcome that
triggers the polling fallback — rather than within one authentication
round-trip.  The auth failure is not reported as a job failure: the stored
result stays `none` and `done` is never set by it. -/
theorem C2_auth_failure_never_subscribes_waits_deadline (request_id clientId : String)
    (authStatus timeout : Nat) (msgs : List (Nat × WsMessage))
    (hauth : authStatus ≠ 200)
    (h : ∀ tm ∈ msgs, resolvesListener request_id tm.2 = false) :
    (listenerTimedRun request_id clientId authStatus timeout msgs).1.sentSubscribe = false ∧
    (listenerTimedRun request_id clientId authStatus timeout msgs).1.result = none ∧
    (listenerTimedRun request_id clientId authStatus timeout msgs).1.done = false ∧
    (listenerTimedRun request_id clientId authStatus timeout msgs).2 = timeout := by
  have hf := foldl_timedStep_nonresolving request_id clientId authStatus msgs initListener h rfl
  have hs := foldl_timedStep_sentSubscribe request_id clientId authStatus hauth msgs
    (initListener, none)
  simp only [listenerTimedRun, hf.2.2.2]
  exact ⟨hs, hf.1, hf.2.1, trivial⟩

/-- Witness for C2 amended: failed auth (HTTP 500) plus unrelated traffic; the
listener never subscribes, stores nothing, and returns at the deadline. -/
theorem C2_witness :
    (listenerTimedRun "job-4" "cl" 500 300
      [(1, WsMessage.connEstablished (some "sock-2")),
       (9, WsMessage.statusUpdated ⟨some "other-job", some "done", "", some "http://x"⟩)]).1.sentSubscribe
        = false ∧
    (listenerTimedRun "job-4" "cl" 500 300
      [(1, WsMessage.connEstablished (some "sock-2")),
       (9, WsMessage.statusUpdated ⟨some "other-job", some "done", "", some "http://x"⟩)]).1.result
        = none ∧
    (listenerTimedRun "job-4" "cl" 500 300
      [(1, WsMessage.connEstablished (some "sock-2")),
       (9, WsMessage.statusUpdated ⟨some "other-job", some "done", "", some "http://x"⟩)]).1.done
        = false ∧
    (listenerTimedRun "job-4" "cl" 500 300
      [(1, WsMessage.connEstablished (some "sock-2")),
       (9, WsMessage.statusUpdated ⟨some "other-job", some "done", "", some "http://x"⟩)]).2
        = 300 :=
  C2_auth_failure_never_subscribes_waits_deadline "job-4" "cl" 500 300 _
    (by decide) (by decide)

/-- Counterexample for C3: a status-update event with status "error" for the
awaited job identifier does set the completion signal (the listener run is
done), but the listener returns no Failed result (it returns `none`, the same
as Unavailable), and the provider then DOES invoke the polling fallback —
refuting the claim that no polling attempts occur afterwards. -/
theorem C3_cex_polling_after_error_event :
    (runListener "req-9" "cl" 200
      [WsMessage.statusUpdated ⟨some "req-9", some "error", "", none⟩]).done = true ∧
    (wait_for_result "req-9" "cl" 200
      [WsMessage.statusUpdated ⟨some "req-9", some "error", "", none⟩]).1 = none ∧
    (resolveJob "req-9" "cl" 200
      [WsMessage.statusUpdated ⟨some "req-9", some "error", "", none⟩]
      (fun _ => 200) (fun _ => ⟨200, some "error", none⟩)).usedPolling = true := by
  decide

/-- C3 amended: a matching status-update event with status "error" sets the
completion signal without storing any result and closes the socket.  The
listener returns `none` — not a distinguished Failed result — and performs no
reconnection (a single connection per call); the provider, seeing no result,
then invokes the polling fallback. -/
theorem C3_error_event_stops_listener_then_polls (request_id clientId : String)
    (authStatus : Nat) (pre : List WsMessage) (p : Payload)
    (fetch : String → Nat) (resps : Nat → HttpResp)
    (hpre : ∀ m ∈ pre, resolvesListener request_id m = false)
    (hid : p.request_id = some request_id)
    (hst : p.status = some "error")
    (hcid : clientId ≠ "") :
    wait_for_result request_id clientId authStatus (pre ++ [.statusUpdated p]) = (none, true) ∧
    (resolveJob request_id clientId authStatus (pre ++ [.statusUpdated p])
      fetch resps).usedPolling = true := by
  have h1 := foldl_stepListener_nonresolving request_id clientId authStatus pre
    initListener hpre rfl
  have hw : wait_for_result request_id clientId authStatus (pre ++ [.statusUpdated p]) =
      (none, true) := by
    simp only [wait_for_result, runListener, List.foldl_append, List.foldl_cons, List.foldl_nil]
    have hstep : stepListener request_id clientId authStatus
        (pre.foldl (stepListener request_id clientId authStatus) initListener)
        (.statusUpdated p) =
        { pre.foldl (stepListener request_id clientId authStatus) initListener with
            done := true, wsClosed := true } := by
      simp [stepListener, h1.2.1, on_message, hid, hst]
    rw [hstep]
    simpa using h1.1
  refine ⟨hw, ?_⟩
  simp [resolveJob, hcid, hw]

/-- Witness for C3 amended at a concrete event sequence with a preceding
progress update. -/
theorem C3_witness :
    wait_for_result "req-8" "cl" 200
      [WsMessage.statusUpdated ⟨some "req-8", some "pending", "40", none⟩,
       WsMessage.statusUpdated ⟨some "req-8", some "error", "", none⟩] = (none, true) ∧
    (resolveJob "req-8" "cl" 200
      [WsMessage.statusUpdated ⟨some "req-8", some "pending", "40", none⟩,
       WsMessage.statusUpdated ⟨some "req-8", some "error", "", none⟩]
      (fun _ => 200) (fun _ => ⟨200, some "error", none⟩)).usedPolling = true :=
  C3_error_event_stops_listener_then_polls "req-8" "cl" 200
    [WsMessage.statusUpdated ⟨some "req-8", some "pending", "40", none⟩]
    ⟨some "req-8", some "error", "", none⟩
    (fun _ => 200) (fun _ => ⟨200, some "error", none⟩)
    (by decide) rfl rfl (by decide)

/-- Counterexample for C1: the real-time listener path produces a genuine
terminal Failed result (a matching error event sets the completion signal),
yet the polling fallback IS invoked for that job, because `wait_for_result`
returns `None` for Failed, TimedOut and Unavailable alike and
`to_illustration` polls whenever it got no image from the WebSocket path. -/
theorem C1_cex_polling_after_terminal_failed :
    (runListener "job-5" "cid" 200
      [WsMessage.statusUpdated ⟨some "job-5", some "error", "", none⟩]).done = true ∧
    (resolveJob "job-5" "cid" 200
      [WsMessage.statusUpdated ⟨some "job-5", some "error", "", none⟩]
      (fun _ => 200) (fun _ => ⟨500, none, none⟩)).usedPolling = true := by
  decide

/-- C1 amended: the polling fallback is skipped exactly when the real-time path
returned a payload whose result_url is non-empty and whose fetch returned HTTP
200 (and a client id made the real-time path eligible at all); in every other
case — including a genuine terminal Failed or TimedOut from the listener,
which the provider cannot distinguish from Unavailable — polling is invoked.
Exactly one final outcome is produced per job: `resolveJob` is a function
yielding a single trace. -/
theorem C1_polling_skipped_iff_ws_image (request_id clientId : String) (authStatus : Nat)
    (msgs : List WsMessage) (fetch : String → Nat) (resps : Nat → HttpResp) :
    (resolveJob request_id clientId authStatus msgs fetch resps).usedPolling = false ↔
      (clientId ≠ "" ∧ ∃ p u,
        (wait_for_result request_id clientId authStatus msgs).1 = some p ∧
        p.result_url = some u ∧ u ≠ "" ∧ fetch u = 200) := by
  by_cases hcid : clientId = ""
  · simp [resolveJob, hcid]
  · rcases hw : (wait_for_result request_id clientId authStatus msgs).1 with _ | p
    · simp [resolveJob, hcid, hw]
    · rcases hu : p.result_url with _ | u
      · simp [resolveJob, hcid, hw, hu]
      · by_cases hue : u = ""
        · simp [resolveJob, hcid, hw, hu, hue]
        · by_cases hf : fetch u = 200
          · simp [resolveJob, hcid, hw, hu, hue, hf]
          · simp [resolveJob, hcid, hw, hu, hue, hf]

lemma pollGo_continue (resps : Nat → HttpResp) (fetch : String → Nat) (fuel k e : Nat)
    (hfuel : 0 < fuel) (he : e < MAX_WAIT_TIME)
    (hc : (resps k).status_code = 200)
    (hd : (resps k).status ≠ some "done")
    (her : (resps k).status ≠ some "error") :
    pollGo resps fetch fuel k e = pollGo resps fetch (fuel - 1) (k+1) (e + POLL_INTERVAL) := by
  obtain ⟨f, rfl⟩ : ∃ f, fuel = f + 1 := ⟨fuel - 1, (Nat.succ_pred_eq_of_pos hfuel).symm⟩
  simp [pollGo, Nat.not_le.mpr he, hc, hd, her]

lemma pollGo_done_at (resps : Nat → HttpResp) (fetch : String → Nat) (fuel k e : Nat)
    (u : String) (hfuel : 0 < fuel) (he : e < MAX_WAIT_TIME)
    (hc : (resps k).status_code = 200)
    (hs : (resps k).status = some "done")
    (hu : (resps k).result_url = some u)
    (hue : u ≠ "") (hf : fetch u = 200) :
    pollGo resps fetch fuel k e = .done u k := by
  obtain ⟨f, rfl⟩ : ∃ f, fuel = f + 1 := ⟨fuel - 1, (Nat.succ_pred_eq_of_pos hfuel).symm⟩
  simp [pollGo, Nat.not_le.mpr he, hc, hs, hu, hue, hf]

lemma pollGo_error_at (resps : Nat → HttpResp) (fetch : String → Nat) (fuel k e : Nat)
    (hfuel : 0 < fuel) (he : e < MAX_WAIT_TIME)
    (hc : (resps k).status_code = 200)
    (hs : (resps k).status = some "error") :
    pollGo resps fetch fuel k e = .jobError k := by
  obtain ⟨f, rfl⟩ : ∃ f, fuel = f + 1 := ⟨fuel - 1, (Nat.succ_pred_eq_of_pos hfuel).symm⟩
  simp [pollGo, Nat.not_le.mpr he, hc, hs]

lemma pollGo_httpfail_at (resps : Nat → HttpResp) (fetch : String → Nat) (fuel k e : Nat)
    (hfuel : 0 < fuel) (he : e < MAX_WAIT_TIME)
    (hc : (resps k).status_code ≠ 200) :
    pollGo resps fetch fuel k e = .failedStatus (resps k).status_code k := by
  obtain ⟨f, rfl⟩ : ∃ f, fuel = f + 1 := ⟨fuel - 1, (Nat.succ_pred_eq_of_pos hfuel).symm⟩
  simp [pollGo, Nat.not_le.mpr he, hc]

lemma pollGo_skip_initial (resps : Nat → HttpResp) (fetch : String → Nat) :
    ∀ (k fuel : Nat), k ≤ 150 → (∀ j, j < k → nonTerminalOK (resps j)) → k < fuel →
      pollGo resps fetch fuel 0 0 = pollGo resps fetch (fuel - k) k (POLL_INTERVAL * k)
  | 0, fuel, _, _, _ => by simp
  | k+1, fuel, hk, hpre, hfuel => by
    have ih := pollGo_skip_initial resps fetch k fuel (by omega)
      (fun j hj => hpre j (by omega)) (by omega)
    rw [ih]
    obtain ⟨hc, hd, her⟩ := hpre k (by omega)
    rw [pollGo_continue resps fetch (fuel - k) k (POLL_INTERVAL * k) (by omega)
      (by show 2 * k < 300; omega) hc hd her]
    have e1 : fuel - k - 1 = fuel - (k + 1) := by omega
    have e2 : POLL_INTERVAL * k + POLL_INTERVAL = POLL_INTERVAL * (k + 1) := by ring
    rw [e1, e2]

lemma pollGo_all_nonterminal_timeout (resps : Nat → HttpResp) (fetch : String → Nat)
    (hall : ∀ j, nonTerminalOK (resps j)) :
    ∀ (fuel k : Nat), k ≤ 150 → 150 - k < fuel →
      pollGo resps fetch fuel k (POLL_INTERVAL * k) = .timedOut 150
  | 0, k, hk, hfuel => by omega
  | fuel+1, k, hk, hfuel => by
    by_cases hend : MAX_WAIT_TIME ≤ POLL_INTERVAL * k
    · have hk150 : k = 150 := by
        have : (300 : Nat) ≤ 2 * k := hend
        omega
      subst hk150
      simp [pollGo, hend]
    · obtain ⟨hc, hd, her⟩ := hall k
      rw [pollGo_continue resps fetch (fuel+1) k (POLL_INTERVAL * k) (by omega)
        (by omega) hc hd her]
      have hk149 : k ≤ 149 := by
        have : ¬ ((300 : Nat) ≤ 2 * k) := hend
        omega
      have e2 : POLL_INTERVAL * k + POLL_INTERVAL = POLL_INTERVAL * (k + 1) := by ring
      rw [Nat.add_sub_cancel, e2]
      exact pollGo_all_nonterminal_timeout resps fetch hall fuel (k+1) (by omega) (by omega)

/-- C5: the polling loop, given "pending" responses for 3 consecutive cycles
and "done" with a result URL on the 4th, returns the image fetched from the
4th cycle's result URL at attempt index 3 — having slept the fixed interval
exactly 3 times, once between consecutive cycles; given "error" on the first
cycle it fails immediately at attempt 0 with no sleep; and if every response
stays "pending" it times out once the deadline is reached, after 150 polls. -/
theorem C5_polling_cycles (resps : Nat → HttpResp) (fetch : String → Nat) (u : String)
    (h0 : resps 0 = ⟨200, some "pending", none⟩)
    (h1 : resps 1 = ⟨200, some "pending", none⟩)
    (h2 : resps 2 = ⟨200, some "pending", none⟩)
    (h3 : resps 3 = ⟨200, some "done", some u⟩)
    (hu : u ≠ "") (hf : fetch u = 200) :
    _poll_for_result resps fetch = .done u 3 ∧
    (∀ resps2 : Nat → HttpResp, resps2 0 = ⟨200, some "error", none⟩ →
      _poll_for_result resps2 fetch = .jobError 0) ∧
    (∀ resps3 : Nat → HttpResp, (∀ n, resps3 n = ⟨200, some "pending", none⟩) →
      _poll_for_result resps3 fetch = .timedOut 150) := by
  refine ⟨?_, ?_, ?_⟩
  · unfold _poll_for_result
    have hpre : ∀ j, j < 3 → nonTerminalOK (resps j) := by
      intro j hj
      interval_cases j
      · rw [h0]; exact ⟨rfl, by decide, by decide⟩
      · rw [h1]; exact ⟨rfl, by decide, by decide⟩
      · rw [h2]; exact ⟨rfl, by decide, by decide⟩
    rw [pollGo_skip_initial resps fetch 3 (MAX_WAIT_TIME + 1) (by norm_num)
      hpre (by norm_num [MAX_WAIT_TIME])]
    exact pollGo_done_at resps fetch _ 3 _ u (by norm_num [MAX_WAIT_TIME])
      (by norm_num [MAX_WAIT_TIME, POLL_INTERVAL])
      (by rw [h3]) (by rw [h3]) (by rw [h3]) hu hf
  · intro resps2 h
    unfold _poll_for_result
    exact pollGo_error_at resps2 fetch _ 0 0 (by norm_num [MAX_WAIT_TIME])
      (by norm_num [MAX_WAIT_TIME]) (by rw [h]) (by rw [h])
  · intro resps3 h
    unfold _poll_for_result
    have := pollGo_all_nonterminal_timeout resps3 fetch
      (fun j => by rw [h j]; exact ⟨rfl, by decide, by decide⟩)
      (MAX_WAIT_TIME + 1) 0 (by norm_num) (by norm_num [MAX_WAIT_TIME])
    simpa using this

/-- Witness for C5: pending for attempts 0..2, done with a URL on attempt 3. -/
theorem C5_witness :
    _poll_for_result
      (fun k => if k < 3 then ⟨200, some "pending", none⟩
                else ⟨200, some "done", some "http://img"⟩)
      (fun _ => 200) = .done "http://img" 3 :=
  (C5_polling_cycles
    (fun k => if k < 3 then ⟨200, some "pending", none⟩
              else ⟨200, some "done", some "http://img"⟩)
    (fun _ => 200) "http://img" rfl rfl rfl rfl (by decide) rfl).1

/-- C7: during polling, every status response with a non-2xx HTTP status code
(reached after any run of non-terminal 200 responses) terminates the poll at
that very attempt with the fatal `failedStatus` outcome — no further status
request is issued, no silent retry happens — and the provider's
`_poll_for_result` surfaces `None` (no image) to its caller in
`to_illustration`. -/
theorem C7_non2xx_poll_response_fatal (resps : Nat → HttpResp) (fetch : String → Nat)
    (k c : Nat) (hk : k ≤ 149)
    (hpre : ∀ j, j < k → nonTerminalOK (resps j))
    (hc : (resps k).status_code = c)
    (h2 : c < 200 ∨ 300 ≤ c) :
    _poll_for_result resps fetch = .failedStatus c k ∧
    pollToOption (_poll_for_result resps fetch) = none := by
  have hmain : _poll_for_result resps fetch = .failedStatus c k := by
    unfold _poll_for_result
    rw [pollGo_skip_initial resps fetch k (MAX_WAIT_TIME + 1) (by omega) hpre
      (by simp only [MAX_WAIT_TIME]; omega)]
    have hne : (resps k).status_code ≠ 200 := by
      rw [hc]; rcases h2 with h | h <;> omega
    have := pollGo_httpfail_at resps fetch (MAX_WAIT_TIME + 1 - k) k (POLL_INTERVAL * k)
      (by simp only [MAX_WAIT_TIME]; omega)
      (by simp only [MAX_WAIT_TIME, POLL_INTERVAL]; omega) hne
    rw [hc] at this
    exact this
  exact ⟨hmain, by rw [hmain]; rfl⟩

/-- Witness for C7: the very first status response is HTTP 503. -/
theorem C7_witness :
    _poll_for_result (fun _ => ⟨503, none, none⟩) (fun _ => 200) = .failedStatus 503 0 ∧
    pollToOption (_poll_for_result (fun _ => ⟨503, none, none⟩) (fun _ => 200)) = none :=
  C7_non2xx_poll_response_fatal (fun _ => ⟨503, none, none⟩) (fun _ => 200) 0 503
    (by omega) (fun j hj => absurd hj (Nat.not_lt_zero j)) rfl (by omega)

/-- C9: for every input — including None, the empty string, whitespace-only
strings, and strings consisting entirely of forbidden characters —
`_sanitize_filename` returns a non-empty string containing none of the
characters / \ : * ? " < > |, and every input whose stripped, filtered form is
empty yields exactly the string "unknown". -/
theorem C9_sanitize_filename_safe (name : Option String) :
    _sanitize_filename name ≠ "" ∧
    (∀ c ∈ (_sanitize_filename name).data, forbiddenFilenameChars.contains c = false) ∧
    (removeForbidden (pyStrip (nameOrUnknown name)) = "" →
      _sanitize_filename name = "unknown") := by
  refine ⟨?_, ?_, ?_⟩
  · simp only [_sanitize_filename]
    by_cases h : removeForbidden (pyStrip (nameOrUnknown name)) = ""
    · rw [if_pos h]; decide
    · rw [if_neg h]; exact h
  · intro c hc
    simp only [_sanitize_filename] at hc
    by_cases h : removeForbidden (pyStrip (nameOrUnknown name)) = ""
    · rw [if_pos h] at hc
      have hall : ∀ c ∈ ("unknown" : String).data, forbiddenFilenameChars.contains c = false := by
        decide
      exact hall c hc
    · rw [if_neg h] at hc
      simp only [removeForbidden] at hc
      have hmem := (List.mem_filter.mp hc).2
      simpa using hmem
  · intro h
    simp only [_sanitize_filename]
    rw [if_pos h]

/-- Witness for C9: a whitespace-and-forbidden-characters-only input reduces to
empty and yields "unknown"; a None input yields a non-empty name. -/
theorem C9_witness :
    _sanitize_filename (some "  /\\:*?\"<>|  ") = "unknown" ∧
    _sanitize_filename none ≠ "" :=
  ⟨(C9_sanitize_filename_safe (some "  /\\:*?\"<>|  ")).2.2 (by decide),
   (C9_sanitize_filename_safe none).1⟩

end InkyPi
